import Mathlib

/-!
# Verification of the `wrenched` markdown widget core (`src/markdown.rs`)

This file shallowly embeds the data model and the operations of
`src/markdown.rs` and proves/refutes the frozen claims about it.

Modelling conventions:
* Machine floats (`f32`/`f64`) are modelled as `ℚ`; the claims at issue are
  about exact formulas, clamping and control flow, not rounding.
* Rust panics (`unwrap`, `panic!`-style macros and unimplemented stubs) are
  modelled as `Except.error`; normal returns as `Except.ok`.
* The external collaborators (the `pulldown_cmark` token stream, the `parley`
  text shaper, the image decoder) are modelled at their interface boundary:
  the token stream is a `List Event`, the shaper is an abstract function
  `ShapeRequest → TextLayout`, the decoder an abstract
  `String → Option DecodedImage`.
* `layout_flow.rs` and `theme.rs` are not part of the provided source; the
  few facts needed about them are modelled from the spec and marked
  `Modelled from the spec:` in their doc comments.
* Source identifiers are kept, including the source's own misspellings
  (`MarkeerState`, `MarkdowWidget`).
-/

set_option autoImplicit false

namespace Wrenched

/-- Heading levels 1-6 (`pulldown_cmark::HeadingLevel`). -/
inductive HeadingLevel where
  | h1 | h2 | h3 | h4 | h5 | h6
  deriving DecidableEq, Repr

/-- Blockquote kinds (`pulldown_cmark::BlockQuoteKind`); carried by blockquote
start/end tags and compared for the scope terminator. -/
inductive BlockQuoteKind where
  | note | tip | important | warning | caution
  deriving DecidableEq, Repr

/-- Start tags of the external token stream, restricted to the payload the
code consumes (`pulldown_cmark::Tag`). Payloads the code ignores
(heading ids/classes/attrs, link types, code-block kinds, table alignments)
are dropped. -/
inductive Tag where
  | paragraph
  | heading (level : HeadingLevel)
  | blockQuote (kind : Option BlockQuoteKind)
  | codeBlock
  | htmlBlock
  | list (startNumber : Option Nat)
  | item
  | footnoteDefinition
  | definitionList
  | definitionListTitle
  | definitionListDefinition
  | table
  | tableHead
  | tableRow
  | tableCell
  | emphasis
  | strong
  | strikethrough
  | link
  | image (destUrl : String) (title : String)
  | metadataBlock
  deriving DecidableEq, Repr

/-- End tags of the external token stream (`pulldown_cmark::TagEnd`). -/
inductive TagEnd where
  | paragraph
  | heading (level : HeadingLevel)
  | blockQuote (kind : Option BlockQuoteKind)
  | codeBlock
  | htmlBlock
  | list (ordered : Bool)
  | item
  | footnoteDefinition
  | definitionList
  | definitionListTitle
  | definitionListDefinition
  | table
  | tableHead
  | tableRow
  | tableCell
  | emphasis
  | strong
  | strikethrough
  | link
  | image
  | metadataBlock
  deriving DecidableEq, Repr

/-- Events of the external token stream (`pulldown_cmark::Event`). -/
inductive Event where
  | start (tag : Tag)
  | endTag (tag : TagEnd)
  | text (s : String)
  | code (s : String)
  | html (s : String)
  | inlineHtml (s : String)
  | footnoteReference (s : String)
  | softBreak
  | hardBreak
  | rule
  | taskListMarker (checked : Bool)
  | inlineMath (s : String)
  | displayMath (s : String)
  deriving DecidableEq, Repr

/-- Inline style kinds (`MarkerKind` in the source). -/
inductive MarkerKind where
  | bold | italic | strikethrough | inlineCode
  deriving DecidableEq, Repr

/-- A resolved style marker: half-open range `[start_pos, end_pos)` into the
owning block's text (`TextMarker` in the source; offsets are byte offsets,
`String::len`). -/
structure TextMarker where
  start_pos : Nat
  end_pos : Nat
  kind : MarkerKind
  deriving DecidableEq, Repr

/-- The result of shaping a text: the measured line-broken layout
(`parley::Layout`), abstracted to the two measurements the code reads back
(`height()` and `full_width()`). -/
structure TextLayout where
  height : ℚ := 0
  fullWidth : ℚ := 0
  deriving DecidableEq, Repr

/-- `parley::Layout::new()`: the empty layout cached on freshly parsed
blocks, before any measurement pass. -/
def TextLayout.new : TextLayout := {}

/-- A decoded image (`peniko::Image`), reduced to the pixel dimensions the
layout reads back. -/
structure DecodedImage where
  width : Nat
  height : Nat
  deriving DecidableEq, Repr

/-- `ListMarker` in the source: either a fixed bullet symbol with one cached
shaped layout, or numbering from `start_number` with one cached shaped layout
per item. -/
inductive ListMarker where
  | symbol (symbol : String) (layout : TextLayout)
  | numbers (start_number : Nat) (layouted : List TextLayout)
  deriving DecidableEq, Repr

/-- `MarkdownContent` in the source. A `LayoutFlow<MarkdownContent>` is
modelled as a `List MarkdownContent` (modelled from the spec:
`layout_flow.rs` is not in the provided source; the spec describes a flow as
an ordered sequence of blocks with derived offsets, `push` appending at the
end). The source's `List` struct (items, marker, indentation) is inlined
into the `list` constructor; the `Indented` decoration struct carries no
data and is dropped. -/
inductive MarkdownContent where
  | indented (flow : List MarkdownContent)
  | header (level : HeadingLevel) (text : String) (markers : List TextMarker)
      (text_layout : TextLayout)
  | list (marker : ListMarker) (items : List (List MarkdownContent))
      (indentation : ℚ)
  | paragraph (top_margin : ℚ) (text : String) (markers : List TextMarker)
      (text_layout : TextLayout)
  | image (uri : String) (title : String) (img : Option DecodedImage)
  | codeBlock (text : String) (text_layout : TextLayout)
  | horizontalLine (height : ℚ)

/-- `MarkeerState` in the source: pending start offsets for the three
stacking inline styles plus the completed markers. -/
structure MarkeerState where
  bold_start : Nat := 0
  italic_start : Nat := 0
  strikethrough_start : Nat := 0
  markers : List TextMarker := []
  deriving DecidableEq, Repr

/-- `MarkeerState::new()`. -/
def MarkeerState.new : MarkeerState := {}

/-- `process_marker`: handles inline emphasis start/end tokens. Returns the
updated state and whether the event was consumed (the source mutates and
returns `bool`). Note that the `End(Emphasis)` arm reads
`strikethrough_start`, exactly as the source does at
`src/markdown.rs:454-461`; `italic_start` is written but never read. -/
def processMarker (event : Event) (marker_state : MarkeerState)
    (text_end : Nat) : MarkeerState × Bool :=
  match event with
  | .start .strong =>
      ({ marker_state with bold_start := text_end }, true)
  | .start .emphasis =>
      ({ marker_state with italic_start := text_end }, true)
  | .start .strikethrough =>
      ({ marker_state with strikethrough_start := text_end }, true)
  | .endTag .strong =>
      ({ marker_state with markers := marker_state.markers ++
          [{ start_pos := marker_state.bold_start, end_pos := text_end,
             kind := .bold }] }, true)
  | .endTag .emphasis =>
      ({ marker_state with markers := marker_state.markers ++
          [{ start_pos := marker_state.strikethrough_start, end_pos := text_end,
             kind := .italic }] }, true)
  | .endTag .strikethrough =>
      ({ marker_state with markers := marker_state.markers ++
          [{ start_pos := marker_state.strikethrough_start, end_pos := text_end,
             kind := .strikethrough }] }, true)
  | _ => (marker_state, false)

/-- `process_image_events`: consume the alt-text scope of an image; a `Text`
event replaces the running text, `End(Image)` returns it; any other event is
logged and skipped; stream exhaustion is logged and yields the empty string.
Also returns the unconsumed remainder of the stream. -/
def processImageEvents : List Event → String → String × List Event
  | [], _ => ("", [])
  | event :: rest, text =>
      match event with
      | .text s => processImageEvents rest s
      | .endTag .image => (text, rest)
      | _ => processImageEvents rest text

/-- `process_header_events`: collect inline text and markers of a heading
scope. `End(Heading(_))` (any level) returns the built `Header` block; other
events are logged and skipped; stream exhaustion is a `panic!` (modelled as
`Except.error`). -/
def processHeaderEvents : List Event → HeadingLevel → String → MarkeerState →
    Except String (MarkdownContent × List Event)
  | [], _, _, _ =>
      .error "Header tag parsing expects Heading end tag and none was received"
  | event :: rest, header_level, text, marker_state =>
      let step := processMarker event marker_state text.utf8ByteSize
      if step.2 then
        processHeaderEvents rest header_level text step.1
      else
        match event with
        | .text s => processHeaderEvents rest header_level (text ++ s) step.1
        | .endTag (.heading _) =>
            .ok (.header header_level text step.1.markers TextLayout.new, rest)
        | _ => processHeaderEvents rest header_level text step.1

/-- The source's `text.trim().is_empty()` test: trimming whitespace from
both ends leaves the empty string exactly when the text is all
whitespace. -/
def trimIsEmpty (s : String) : Bool :=
  s.data.all Char.isWhitespace

/-- Flush of the pending paragraph at end of scope (`src/markdown.rs:709-719`):
non-empty (untrimmed) pending text is emitted as a `Paragraph` with top
margin `12.0`. -/
def flushScope (res : List MarkdownContent) (text : String)
    (marker_state : MarkeerState) : List MarkdownContent :=
  if text ≠ "" then
    res ++ [.paragraph 12 text marker_state.markers TextLayout.new]
  else
    res

mutual

/-- `process_events`: the recursive-descent block builder. The Rust loop's
local state (`res`, `text`, `marker_state`) is lifted into parameters; the
shared forward-only cursor is the explicit event list, with each call
returning the unconsumed remainder. `fuel` bounds the recursion (every
iteration consumes at least one event, so `events.length + 1` always
suffices); panics (`todo!()` stubs) are `Except.error`. -/
def processEvents (fuel : Nat) (events : List Event) (untill : Option Event)
    (res : List MarkdownContent) (text : String)
    (marker_state : MarkeerState) :
    Except String (List MarkdownContent × List Event) :=
  match events with
  | [] => .ok (flushScope res text marker_state, [])
  | event :: rest =>
      if untill = some event then
        .ok (flushScope res text marker_state, rest)
      else
        match fuel with
        | 0 => .error "out of fuel"
        | fuel + 1 =>
            let step := processMarker event marker_state text.utf8ByteSize
            if step.2 then
              processEvents fuel rest untill res text step.1
            else
              match event with
              | .start tag =>
                  match tag with
                  | .image destUrl title =>
                      let alt := processImageEvents rest ""
                      processEvents fuel alt.2 untill
                        (res ++ [.image destUrl title none]) text step.1
                  | .codeBlock =>
                      processEvents fuel rest untill res text step.1
                  | .table =>
                      processEvents fuel rest untill res text step.1
                  | .paragraph =>
                      processEvents fuel rest untill res text step.1
                  | .heading level =>
                      match processHeaderEvents rest level "" MarkeerState.new with
                      | .error e => .error e
                      | .ok (block, rest') =>
                          processEvents fuel rest' untill (res ++ [block])
                            text step.1
                  | .blockQuote kind =>
                      match processEvents fuel rest
                          (some (.endTag (.blockQuote kind))) [] ""
                          MarkeerState.new with
                      | .error e => .error e
                      | .ok (flow, rest') =>
                          processEvents fuel rest' untill
                            (res ++ [.indented flow]) text step.1
                  | .htmlBlock => .error "not yet implemented: html block"
                  | .list startNumber =>
                      match processListEvents fuel rest [] with
                      | .error e => .error e
                      | .ok (items, rest') =>
                          let marker := match startNumber with
                            | some n => ListMarker.numbers n []
                            | none => ListMarker.symbol "•" TextLayout.new
                          processEvents fuel rest' untill
                            (res ++ [.list marker items 0]) text step.1
                  | .footnoteDefinition =>
                      .error "not yet implemented: footnote definition"
                  | .definitionList =>
                      processEvents fuel rest untill res text step.1
                  | .definitionListTitle =>
                      processEvents fuel rest untill res text step.1
                  | .definitionListDefinition =>
                      processEvents fuel rest untill res text step.1
                  | .tableHead => .error "not yet implemented: table head"
                  | .tableRow => .error "not yet implemented: table row"
                  | .tableCell => .error "not yet implemented: table cell"
                  | .link => .error "not yet implemented: link"
                  | .metadataBlock =>
                      processEvents fuel rest untill res text step.1
                  | _ =>
                      processEvents fuel rest untill res text step.1
              | .endTag endTag' =>
                  match endTag' with
                  | .paragraph =>
                      if !trimIsEmpty text then
                        processEvents fuel rest untill
                          (res ++ [.paragraph 10 text step.1.markers
                            TextLayout.new])
                          "" { step.1 with markers := [] }
                      else
                        processEvents fuel rest untill res text step.1
                  | .codeBlock => .error "not yet implemented: code block end"
                  | .htmlBlock => .error "not yet implemented: html block end"
                  | .footnoteDefinition =>
                      .error "not yet implemented: footnote definition end"
                  | .table => .error "not yet implemented: table end"
                  | .tableHead => .error "not yet implemented: table head end"
                  | .tableRow => .error "not yet implemented: table row end"
                  | .tableCell => .error "not yet implemented: table cell end"
                  | .link => .error "not yet implemented: link end"
                  | _ =>
                      processEvents fuel rest untill res text step.1
              | .text s =>
                  processEvents fuel rest untill res (text ++ s) step.1
              | .code s =>
                  processEvents fuel rest untill res (text ++ s)
                    { step.1 with markers := step.1.markers ++
                        [{ start_pos := text.utf8ByteSize,
                           end_pos := text.utf8ByteSize + s.utf8ByteSize,
                           kind := .inlineCode }] }
              | .html s =>
                  processEvents fuel rest untill res (text ++ s)
                    { step.1 with markers := step.1.markers ++
                        [{ start_pos := text.utf8ByteSize,
                           end_pos := text.utf8ByteSize + s.utf8ByteSize,
                           kind := .inlineCode }] }
              | .hardBreak =>
                  processEvents fuel rest untill res (text ++ "\n") step.1
              | .softBreak =>
                  processEvents fuel rest untill res (text ++ " ") step.1
              | .rule =>
                  processEvents fuel rest untill
                    (res ++ [.horizontalLine 0]) text step.1
              | .footnoteReference _ =>
                  processEvents fuel rest untill res text step.1
              | .taskListMarker _ =>
                  processEvents fuel rest untill res text step.1
              | .inlineHtml _ =>
                  processEvents fuel rest untill res text step.1
              | .inlineMath _ =>
                  processEvents fuel rest untill res text step.1
              | .displayMath _ =>
                  processEvents fuel rest untill res text step.1

/-- `process_list_events`: each `Start(Item)` opens a nested scope
terminated by `End(Item)` and yields one child flow; `End(List(_))` ends the
list; any other event is a `panic!` (modelled as `Except.error`). Stream
exhaustion simply ends the loop. -/
def processListEvents (fuel : Nat) (events : List Event)
    (list_elements : List (List MarkdownContent)) :
    Except String (List (List MarkdownContent) × List Event) :=
  match events with
  | [] => .ok (list_elements, [])
  | event :: rest =>
      match fuel with
      | 0 => .error "out of fuel"
      | fuel + 1 =>
          match event with
          | .start .item =>
              match processEvents fuel rest (some (.endTag .item)) [] ""
                  MarkeerState.new with
              | .error e => .error e
              | .ok (flow, rest') =>
                  processListEvents fuel rest' (list_elements ++ [flow])
          | .endTag (.list _) => .ok (list_elements, rest)
          | _ => .error "List tag parsing expects List end tag"

end

/-- Build the block tree from a complete token stream (`parse_markdown`
composed with the external tokenizer's output): process to stream end with
no terminator, from empty state. -/
def buildBlocks (events : List Event) : Except String (List MarkdownContent) :=
  match processEvents (events.length + 1) events none [] "" MarkeerState.new with
  | .error e => .error e
  | .ok (res, _) => .ok res

/-! ## Heights and offsets -/

mutual

/-- `impl LayoutData for MarkdownContent { fn height }`
(`src/markdown.rs:341-375`). -/
def MarkdownContent.height : MarkdownContent → ℚ
  | .paragraph top_margin _ _ text_layout => text_layout.height + top_margin
  | .image _ _ img =>
      match img with
      | some i => (i.height : ℚ)
      | none => 0
  | .codeBlock _ text_layout => text_layout.height
  | .indented flow => flowHeight flow
  | .list _ items _ => itemsHeight items
  | .horizontalLine height => height
  | .header _ _ _ text_layout => text_layout.height

/-- Modelled from the spec: `LayoutFlow::height` (`layout_flow.rs` is not in
the provided source) — the flow's total height is the terminal offset, i.e.
the sum of its blocks' heights. -/
def flowHeight : List MarkdownContent → ℚ
  | [] => 0
  | b :: rest => MarkdownContent.height b + flowHeight rest

/-- Sum of the item flows' heights (`list.list.iter().map(height).sum()`). -/
def itemsHeight : List (List MarkdownContent) → ℚ
  | [] => 0
  | f :: rest => flowHeight f + itemsHeight rest

end

/-- Modelled from the spec: a flow's cached vertical offsets —
`offset[0] = 0`, `offset[i] = offset[i-1] + height[i-1]`. -/
def flowOffsetsAux (acc : ℚ) : List MarkdownContent → List ℚ
  | [] => []
  | b :: rest => acc :: flowOffsetsAux (acc + MarkdownContent.height b) rest

/-- Modelled from the spec: the offsets of a flow's blocks, in order. -/
def flowOffsets (flow : List MarkdownContent) : List ℚ :=
  flowOffsetsAux 0 flow

/-! ## Layout (measurement pass) -/

/-- Modelled from the spec: `theme.rs` is not part of the provided source;
the theme supplies the base text size and the spacing constants named in
§4.2, as opaque values. Field names follow the source call sites. -/
structure Theme where
  text_size : ℚ
  markdown_indentation_decoration_width : ℚ
  markdown_bullet_list_indentation : ℚ
  markdown_numbered_list_indentation : ℚ
  markdown_list_after_indentation : ℚ
  deriving DecidableEq, Repr

/-- A request handed to the external shaper: the information the code feeds
through `text_to_builder`, `push_default` overrides, `break_all_lines` and
`align` (text, markers, effective default font size / line height / weight,
break width, end alignment). The shaper itself is abstract. -/
structure ShapeRequest where
  text : String
  markers : List TextMarker
  fontSize : ℚ
  lineHeight : ℚ
  bold : Bool
  maxWidth : Option ℚ
  alignEnd : Bool
  deriving DecidableEq, Repr

/-- The shape request issued for a list marker glyph (`text_to_builder` on
the marker string with no markers, broken with `None`, numbered markers
aligned `End`). -/
def markerShapeReq (theme : Theme) (s : String) (alignEnd : Bool) :
    ShapeRequest :=
  { text := s, markers := [], fontSize := theme.text_size, lineHeight := 1,
    bold := false, maxWidth := none, alignEnd := alignEnd }

/-- The heading font size override (`src/markdown.rs:216-223`). -/
def headerFontSize (theme : Theme) : HeadingLevel → ℚ
  | .h1 => theme.text_size * 2.125
  | .h2 => theme.text_size * 1.875
  | .h3 => theme.text_size * 1.5
  | .h4 => theme.text_size * 1.25
  | .h5 => theme.text_size * 1.125
  | .h6 => theme.text_size

/-- The heading line-height override (`src/markdown.rs:224-232`): chosen per
level, currently `2.0` for every level. -/
def headerLineHeight : HeadingLevel → ℚ
  | .h1 => 2
  | .h2 => 2
  | .h3 => 2
  | .h4 => 2
  | .h5 => 2
  | .h6 => 2

/-- One iteration of the numbered-marker measurement loop
(`src/markdown.rs:172-190`): shape `"<k + start_number>."`, add the two
spacing constants, keep the running maximum, append the shaped layout. -/
def numberMarkerStep (shape : ShapeRequest → TextLayout) (theme : Theme)
    (start_number : Nat) (acc : ℚ × List TextLayout) (k : Nat) :
    ℚ × List TextLayout :=
  let str := toString (k + start_number) ++ "."
  let marker_layout := shape (markerShapeReq theme str true)
  let width := marker_layout.fullWidth
    + theme.markdown_numbered_list_indentation
    + theme.markdown_list_after_indentation
  (if acc.1 < width then width else acc.1, acc.2 ++ [marker_layout])

/-- The list-marker measurement (`src/markdown.rs:153-193`): bulleted lists
shape the symbol once and add the two spacing constants; numbered lists
clear the cached layouts, shape every `"<k + start>."`, and take the maximum
width (starting from `0.0`). Returns the updated marker and the
indentation. -/
def layoutListMarker (shape : ShapeRequest → TextLayout) (theme : Theme)
    (marker : ListMarker) (numItems : Nat) : ListMarker × ℚ :=
  match marker with
  | .symbol symbol _ =>
      let marker_layout := shape (markerShapeReq theme symbol false)
      (.symbol symbol marker_layout,
        marker_layout.fullWidth
          + theme.markdown_bullet_list_indentation
          + theme.markdown_list_after_indentation)
  | .numbers start_number _ =>
      let r := (List.range numItems).foldl
        (numberMarkerStep shape theme start_number) (0, [])
      (.numbers start_number r.2, r.1)

mutual

/-- `MarkdownContent::layout` (`src/markdown.rs:93-241`), with the external
shaper and image decoder as parameters. `image::open(uri).unwrap()` on a
failed decode is a panic, modelled as `Except.error`. -/
def layoutBlock (shape : ShapeRequest → TextLayout)
    (decode : String → Option DecodedImage) (theme : Theme) (width : ℚ) :
    MarkdownContent → Except String MarkdownContent
  | .paragraph top_margin text markers _ =>
      .ok (.paragraph top_margin text markers
        (shape { text := text, markers := markers,
                 fontSize := theme.text_size, lineHeight := 1, bold := false,
                 maxWidth := some width, alignEnd := false }))
  | .image uri title img =>
      match img with
      | none =>
          match decode uri with
          | none => .error "called Option.unwrap on a None value"
          | some decoded => .ok (.image uri title (some decoded))
      | some _ => .ok (.image uri title img)
  | .codeBlock text text_layout => .ok (.codeBlock text text_layout)
  | .indented flow =>
      match layoutFlow shape decode theme
          (width - theme.markdown_indentation_decoration_width) flow with
      | .error e => .error e
      | .ok flow' => .ok (.indented flow')
  | .list marker items _ =>
      let r := layoutListMarker shape theme marker items.length
      Except.map (fun items' => MarkdownContent.list r.1 items' r.2)
        (layoutItems shape decode theme (width - r.2) items)
  | .horizontalLine height => .ok (.horizontalLine height)
  | .header level text markers _ =>
      .ok (.header level text markers
        (shape { text := text, markers := markers,
                 fontSize := headerFontSize theme level,
                 lineHeight := headerLineHeight level, bold := true,
                 maxWidth := some width, alignEnd := false }))

/-- Modelled from the spec: `LayoutFlow::apply_to_all` applies the
measurement to every block in document order; a panic in one block aborts
the whole pass (Rust panics propagate). -/
def layoutFlow (shape : ShapeRequest → TextLayout)
    (decode : String → Option DecodedImage) (theme : Theme) (width : ℚ) :
    List MarkdownContent → Except String (List MarkdownContent)
  | [] => .ok []
  | b :: rest =>
      match layoutBlock shape decode theme width b with
      | .error e => .error e
      | .ok b' =>
          match layoutFlow shape decode theme width rest with
          | .error e => .error e
          | .ok rest' => .ok (b' :: rest')

/-- Layout of every list item's child flow, in order
(`src/markdown.rs:196-205`). -/
def layoutItems (shape : ShapeRequest → TextLayout)
    (decode : String → Option DecodedImage) (theme : Theme) (width : ℚ) :
    List (List MarkdownContent) →
    Except String (List (List MarkdownContent))
  | [] => .ok []
  | f :: rest =>
      match layoutFlow shape decode theme width f with
      | .error e => .error e
      | .ok f' =>
          match layoutItems shape decode theme width rest with
          | .error e => .error e
          | .ok rest' => .ok (f' :: rest')

end

/-! ## The widget: layout guard and scrolling -/

/-- `MarkdowWidget` (source spelling), reduced to the fields the verified
operations touch (`layout_ctx` is an external handle and carries no
state the claims mention). -/
structure MarkdowWidget where
  markdown_layout : List MarkdownContent
  max_advance : ℚ
  dirty : Bool
  scroll : ℚ × ℚ

/-- `MarkdowWidget::layout` (`src/markdown.rs:1021-1046`): re-measure the
whole flow only when dirty or when the width changed; always record the
width and clear the dirty flag. The measurement itself
(`apply_to_all(layout)`) is abstracted as `relayout`; the returned `Bool`
reports whether it ran. -/
def widgetLayout (relayout : List MarkdownContent → ℚ → List MarkdownContent)
    (w : MarkdowWidget) (width : ℚ) : MarkdowWidget × Bool :=
  if w.dirty ∨ w.max_advance ≠ width then
    ({ w with
        markdown_layout := relayout w.markdown_layout width,
        max_advance := width,
        dirty := false }, true)
  else
    ({ w with max_advance := width, dirty := false }, false)

/-- The mouse-wheel branch of `MarkdowWidget::on_pointer_event`
(`src/markdown.rs:988-1013`): scale the delta by `-3`, add it to the scroll,
then clamp in source order: `x.max(0)`, `y.max(0)`, `x.min(0)`,
`y.min(content_height - size.height + baseline)`. -/
def onMouseWheel (w : MarkdowWidget) (delta : ℚ × ℚ)
    (sizeHeight baseline : ℚ) : MarkdowWidget :=
  let scrolling_speed : ℚ := 3
  let d : ℚ × ℚ := (delta.1 * -scrolling_speed, delta.2 * -scrolling_speed)
  let s : ℚ × ℚ := (w.scroll.1 + d.1, w.scroll.2 + d.2)
  let sx := max s.1 0
  let sy := max s.2 0
  let sx := min sx 0
  let sy := min sy (flowHeight w.markdown_layout - sizeHeight + baseline)
  { w with scroll := (sx, sy) }

/-! ## Painting -/

/-- The vertical extent of a source rectangle (`kurbo::Rect`; the paint code
only consults `y0`/`y1`, `x0 = x1 = 0` throughout). -/
structure Rect where
  y0 : ℚ
  y1 : ℚ
  deriving DecidableEq, Repr

/-- Modelled from the spec: `VisiblePart::get_source_rect` — the clipped
sub-rectangle, the intersection of the viewport with the block's offset
span, in the block's local coordinates. -/
def subSourceRect (rect : Rect) (off h : ℚ) : Rect :=
  { y0 := max (rect.y0 - off) 0, y1 := min (rect.y1 - off) h }

/-- A draw call issued to the scene, abstracted: `draw_text` walks the
visible lines of a shaped layout emitting glyph-run and decoration strokes;
since the claims concern only which blocks are drawn and whether painting
aborts, it is collapsed to one abstract glyph op per layout. -/
inductive DrawOp where
  | glyphs (layout : TextLayout) (translation : ℚ × ℚ)
  | image (img : DecodedImage) (translation : ℚ × ℚ)
  deriving DecidableEq, Repr

mutual

/-- `MarkdownContent::paint` (`src/markdown.rs:244-338`). The `CodeBlock`
and `HorizontalLine` arms are `todo!()` in the source — panics, modelled as
`Except.error`. -/
def MarkdownContent.paint (theme : Theme) (translation : ℚ × ℚ)
    (source_rect : Rect) :
    MarkdownContent → Except String (List DrawOp)
  | .paragraph _ _ _ text_layout => .ok [.glyphs text_layout translation]
  | .image _ _ img =>
      .ok (match img with
        | some i => [DrawOp.image i translation]
        | none => [])
  | .codeBlock _ _ => .error "not yet implemented: code block drawing"
  | .indented flow =>
      paintFlowAux theme
        (translation.1 + theme.markdown_indentation_decoration_width,
          translation.2)
        source_rect false 0 flow
  | .list marker items indentation =>
      paintListItems theme translation source_rect marker indentation 0 items
  | .horizontalLine _ => .error "not yet implemented: horizontal line drawing"
  | .header _ _ _ text_layout => .ok [.glyphs text_layout translation]

/-- `draw_flow` fused with the flow's visibility query (modelled from the
spec: `get_visible_parts` returns, in order, the blocks whose
`[offset, offset+height)` span intersects the viewport, each with its
offset and clipped sub-rectangle): walk the blocks with their running
offset, painting the visible ones translated by their offset (minus the
viewport top when `apply_scroll` is set). -/
def paintFlowAux (theme : Theme) (translation : ℚ × ℚ) (source_rect : Rect)
    (apply_scroll : Bool) (off : ℚ) :
    List MarkdownContent → Except String (List DrawOp)
  | [] => .ok []
  | b :: rest =>
      let h := MarkdownContent.height b
      if off < source_rect.y1 ∧ source_rect.y0 < off + h then
        match MarkdownContent.paint theme
            (translation.1,
              translation.2 + off -
                (if apply_scroll then source_rect.y0 else 0))
            (subSourceRect source_rect off h) b with
        | .error e => .error e
        | .ok ops =>
            match paintFlowAux theme translation source_rect apply_scroll
                (off + h) rest with
            | .error e => .error e
            | .ok ops' => .ok (ops ++ ops')
      else
        paintFlowAux theme translation source_rect apply_scroll (off + h) rest

/-- The per-item loop of the `List` paint arm (`src/markdown.rs:285-326`):
draw the item's flow at `x + indentation`, then the marker (bulleted at the
fixed left offset; numbered right-aligned against the indentation boundary,
indexing `layouted[index]`, which panics when out of bounds), then advance
`y` by the item flow's height. -/
def paintListItems (theme : Theme) (translation : ℚ × ℚ) (source_rect : Rect)
    (marker : ListMarker) (indentation : ℚ) (index : Nat) :
    List (List MarkdownContent) → Except String (List DrawOp)
  | [] => .ok []
  | flow :: rest =>
      match paintFlowAux theme (translation.1 + indentation, translation.2)
          source_rect false 0 flow with
      | .error e => .error e
      | .ok ops =>
          let markerOps : Except String (List DrawOp) :=
            match marker with
            | .symbol _ layout =>
                .ok [.glyphs layout
                  (translation.1 + theme.markdown_bullet_list_indentation,
                    translation.2)]
            | .numbers _ layouted =>
                match layouted.get? index with
                | none => .error "index out of bounds"
                | some ml =>
                    .ok [.glyphs ml
                      (translation.1 +
                        (indentation - ml.fullWidth
                          - theme.markdown_list_after_indentation),
                        translation.2)]
          match markerOps with
          | .error e => .error e
          | .ok mops =>
              match paintListItems theme
                  (translation.1, translation.2 + flowHeight flow)
                  source_rect marker indentation (index + 1) rest with
              | .error e => .error e
              | .ok ops' => .ok (ops ++ mops ++ ops')

end

/-! ## Concrete fixtures used by the evaluation theorems -/

/-- A concrete theme instance. -/
def theme0 : Theme :=
  { text_size := 16, markdown_indentation_decoration_width := 10,
    markdown_bullet_list_indentation := 4,
    markdown_numbered_list_indentation := 5,
    markdown_list_after_indentation := 8 }

/-- A concrete shaper: every request measures one unit tall and as wide as
the text's byte length. -/
def shape0 : ShapeRequest → TextLayout :=
  fun r => { height := 1, fullWidth := (r.text.utf8ByteSize : ℚ) }

/-- A concrete decoder that fails on every source reference (a nonexistent
path). -/
def decode0 : String → Option DecodedImage := fun _ => none

/-- A concrete widget: empty document, clean, unscrolled. -/
def w0 : MarkdowWidget :=
  { markdown_layout := [], max_advance := 0, dirty := false,
    scroll := (0, 0) }

/-- The token stream the external tokenizer produces for
`"**a** *b* ~~c~~ \x60d\x60"`; the plain text accumulates to `"a b c d"`
with `a`, `b`, `c`, `d` at byte offsets 0, 2, 4, 6. -/
def c1Events : List Event :=
  [.start .paragraph, .start .strong, .text "a", .endTag .strong, .text " ",
   .start .emphasis, .text "b", .endTag .emphasis, .text " ",
   .start .strikethrough, .text "c", .endTag .strikethrough, .text " ",
   .code "d", .endTag .paragraph]

/-- A token stream with a table between two paragraphs. -/
def c3TableEvents : List Event :=
  [.start .paragraph, .text "one", .endTag .paragraph,
   .start .table, .endTag .table,
   .start .paragraph, .text "two", .endTag .paragraph]

/-- A token stream with the unsupported constructs the code does tolerate
(definition list, task marker, footnote reference, inline HTML, inline and
display math) between two paragraphs. -/
def c3ToleratedEvents : List Event :=
  [.start .paragraph, .text "one", .endTag .paragraph,
   .start .definitionList, .endTag .definitionList,
   .taskListMarker true, .footnoteReference "f", .inlineHtml "<i>",
   .inlineMath "x", .displayMath "y",
   .start .paragraph, .text "two", .endTag .paragraph]

/-! ## Claim theorems -/

/-- C1 (code_bug evidence): on the token stream of
`"**a** *b* ~~c~~ \x60d\x60"` the builder emits one marker per kind with
Bold, Strikethrough and InlineCode at the plain-text offsets of `a`, `c`,
`d` — but the Italic marker starts at 0, the recorded
`strikethrough_start`, not at 2, the offset recorded at the Emphasis start
token; the result is not the marker list the claim requires. -/
theorem c1_italic_marker_start_bug :
    buildBlocks c1Events =
      .ok [.paragraph 10 "a b c d"
        [⟨0, 1, .bold⟩, ⟨0, 3, .italic⟩, ⟨4, 5, .strikethrough⟩,
         ⟨6, 7, .inlineCode⟩] TextLayout.new]
    ∧ buildBlocks c1Events ≠
      .ok [.paragraph 10 "a b c d"
        [⟨0, 1, .bold⟩, ⟨2, 3, .italic⟩, ⟨4, 5, .strikethrough⟩,
         ⟨6, 7, .inlineCode⟩] TextLayout.new] := by
  have e : buildBlocks c1Events =
      .ok [.paragraph 10 "a b c d"
        [⟨0, 1, .bold⟩, ⟨0, 3, .italic⟩, ⟨4, 5, .strikethrough⟩,
         ⟨6, 7, .inlineCode⟩] TextLayout.new] := rfl
  refine ⟨e, fun h => ?_⟩
  rw [e] at h
  simp at h

/-- C2 (code_bug evidence): measuring a flow whose middle block is an
`Image` with no decoded handle and an undecodable source aborts the whole
pass with a panic (`image::open(uri).unwrap()`), so the trailing sibling is
never measured — while `height` on the undecoded image is indeed 0. -/
theorem c2_image_decode_unwrap_panics :
    layoutFlow shape0 decode0 theme0 100
      [.paragraph 10 "x" [] TextLayout.new,
       .image "missing.png" "" none,
       .paragraph 10 "y" [] TextLayout.new]
      = .error "called Option.unwrap on a None value"
    ∧ MarkdownContent.height (.image "missing.png" "" none) = 0 :=
  ⟨rfl, rfl⟩

/-- C3 counterexample: a document with a table between two paragraphs does
not yield two paragraph blocks — block building aborts with a panic at the
table's end tag (`todo!()`). -/
theorem c3_table_between_paragraphs_aborts :
    buildBlocks c3TableEvents = .error "not yet implemented: table end" :=
  rfl

/-- C3 (amended): definition lists, task markers, footnote references,
inline HTML and math events between two paragraphs are logged and skipped —
building completes with exactly the two paragraphs and no block for them —
but table end tags, HTML blocks, footnote definitions and links abort block
building with a panic. -/
theorem c3_amended_unsupported_constructs :
    buildBlocks c3ToleratedEvents =
      .ok [.paragraph 10 "one" [] TextLayout.new,
           .paragraph 10 "two" [] TextLayout.new]
    ∧ buildBlocks [.start .paragraph, .text "a", .endTag .paragraph,
        .start .table, .endTag .table] = .error "not yet implemented: table end"
    ∧ buildBlocks [.start .htmlBlock] = .error "not yet implemented: html block"
    ∧ buildBlocks [.start .footnoteDefinition] =
        .error "not yet implemented: footnote definition"
    ∧ buildBlocks [.start .link] = .error "not yet implemented: link" :=
  ⟨rfl, rfl, rfl, rfl, rfl⟩

/-- C4 counterexample: painting a visible `CodeBlock` block is not a
non-crashing no-op — it panics (`todo!()`). -/
theorem c4_codeblock_paint_panics :
    MarkdownContent.paint theme0 (0, 0) { y0 := 0, y1 := 100 }
      (.codeBlock "let x = 1;" TextLayout.new)
      = .error "not yet implemented: code block drawing" :=
  rfl

/-- C4 (amended): painting a `CodeBlock` or a `HorizontalLine` block always
aborts with a panic — both arms are unimplemented `todo!()` placeholders,
for every theme, translation, clip rectangle and block payload. -/
theorem c4_amended_paint_todo (theme : Theme) (translation : ℚ × ℚ)
    (source_rect : Rect) (text : String) (tl : TextLayout) (h : ℚ) :
    MarkdownContent.paint theme translation source_rect (.codeBlock text tl)
      = .error "not yet implemented: code block drawing"
    ∧ MarkdownContent.paint theme translation source_rect
        (.horizontalLine h)
      = .error "not yet implemented: horizontal line drawing" :=
  ⟨rfl, rfl⟩

/-- C5: at a paragraph end token, nothing is emitted when the trimmed text
is empty; otherwise exactly one `Paragraph` block with top margin 10
carrying the accumulated text and markers is emitted and the pending text
and marker list are cleared. At end of scope, non-empty pending text is
flushed as a `Paragraph` with the distinct top margin 12. -/
theorem c5_paragraph_flush (fuel : Nat) (rest : List Event)
    (untill : Option Event) (res : List MarkdownContent) (text : String)
    (marker_state : MarkeerState) :
    (processEvents (fuel + 1) (Event.endTag TagEnd.paragraph :: rest) none
        res text marker_state =
      if !trimIsEmpty text then
        processEvents fuel rest none
          (res ++ [.paragraph 10 text marker_state.markers TextLayout.new])
          "" { marker_state with markers := [] }
      else
        processEvents fuel rest none res text marker_state)
    ∧ (processEvents fuel [] untill res text marker_state =
        .ok ((if text ≠ "" then
          res ++ [.paragraph 12 text marker_state.markers TextLayout.new]
        else res), []))
    ∧ (10 : ℚ) ≠ 12 := by
  refine ⟨rfl, ?_, by norm_num⟩
  cases fuel <;> rfl

/-- The running maximum in the numbered-marker loop never decreases below
its starting value. -/
theorem le_foldl_numberMarkerStep (shape : ShapeRequest → TextLayout)
    (theme : Theme) (start_number : Nat) :
    ∀ (l : List Nat) (a : ℚ) (ls : List TextLayout),
      a ≤ (List.foldl (numberMarkerStep shape theme start_number) (a, ls) l).1
  | [], a, _ => le_refl a
  | k :: t, a, ls => by
      rw [List.foldl_cons]
      refine le_trans ?_
        (le_foldl_numberMarkerStep shape theme start_number t _ _)
      show a ≤ (numberMarkerStep shape theme start_number (a, ls) k).1
      simp only [numberMarkerStep]
      split
      · exact le_of_lt (by assumption)
      · exact le_refl a

/-- The running maximum in the numbered-marker loop dominates the measured
width of every index it visits. -/
theorem mem_le_foldl_numberMarkerStep (shape : ShapeRequest → TextLayout)
    (theme : Theme) (start_number : Nat) :
    ∀ (l : List Nat) (a : ℚ) (ls : List TextLayout) (k : Nat), k ∈ l →
      (shape (markerShapeReq theme
          (toString (k + start_number) ++ ".") true)).fullWidth
        + theme.markdown_numbered_list_indentation
        + theme.markdown_list_after_indentation
      ≤ (List.foldl (numberMarkerStep shape theme start_number) (a, ls) l).1
  | [], _, _, k, hk => absurd hk (List.not_mem_nil k)
  | k' :: t, a, ls, k, hk => by
      rw [List.foldl_cons]
      rcases List.mem_cons.mp hk with h | h
      · subst h
        refine le_trans ?_
          (le_foldl_numberMarkerStep shape theme start_number t _ _)
        show _ ≤ (numberMarkerStep shape theme start_number (a, ls) k).1
        simp only [numberMarkerStep]
        split
        · exact le_refl _
        · exact le_of_not_lt (by assumption)
      · exact mem_le_foldl_numberMarkerStep shape theme start_number t _ _ k h

set_option maxRecDepth 4096 in
/-- C6: laying out a `List` block stores the indentation computed from the
markers and lays out every item's child flow at `width - indentation`; for
a numbered list of items 1..12 the indentation is at least the shaped width
of `"12."` plus the two theme spacing constants; a bulleted list's
indentation does not depend on the item count. -/
theorem c6_list_indentation (shape : ShapeRequest → TextLayout)
    (decode : String → Option DecodedImage) (theme : Theme) (width : ℚ)
    (marker : ListMarker) (items : List (List MarkdownContent)) (ind0 : ℚ)
    (sym : String) (tl : TextLayout) (ls : List TextLayout) (n m : Nat) :
    (layoutBlock shape decode theme width (.list marker items ind0) =
      Except.map
        (fun items' => MarkdownContent.list
          (layoutListMarker shape theme marker items.length).1 items'
          (layoutListMarker shape theme marker items.length).2)
        (layoutItems shape decode theme
          (width - (layoutListMarker shape theme marker items.length).2)
          items))
    ∧ ((shape (markerShapeReq theme "12." true)).fullWidth
        + theme.markdown_numbered_list_indentation
        + theme.markdown_list_after_indentation
      ≤ (layoutListMarker shape theme (.numbers 1 ls) 12).2)
    ∧ ((layoutListMarker shape theme (.symbol sym tl) n).2 =
        (layoutListMarker shape theme (.symbol sym tl) m).2) := by
  refine ⟨rfl, ?_, rfl⟩
  exact mem_le_foldl_numberMarkerStep shape theme 1 (List.range 12) 0 [] 11
    (by decide)

/-- C7: an inline code token and a raw inline HTML token each append an
immediately-closed marker whose half-open range spans exactly the inserted
text — start is the text length before insertion, end is start plus the
inserted length — and append the token's text to the paragraph text. -/
theorem c7_inline_code_markers (fuel : Nat) (rest : List Event)
    (res : List MarkdownContent) (text : String)
    (marker_state : MarkeerState) (s : String) :
    (processEvents (fuel + 1) (Event.code s :: rest) none res text
        marker_state =
      processEvents fuel rest none res (text ++ s)
        { marker_state with markers := marker_state.markers ++
            [{ start_pos := text.utf8ByteSize,
               end_pos := text.utf8ByteSize + s.utf8ByteSize,
               kind := .inlineCode }] })
    ∧ (processEvents (fuel + 1) (Event.html s :: rest) none res text
        marker_state =
      processEvents fuel rest none res (text ++ s)
        { marker_state with markers := marker_state.markers ++
            [{ start_pos := text.utf8ByteSize,
               end_pos := text.utf8ByteSize + s.utf8ByteSize,
               kind := .inlineCode }] }) :=
  ⟨rfl, rfl⟩

/-- C8: after one layout pass at a width, a second pass at the same width
with content left non-dirty is a guarded no-op: it performs no
re-measurement (the flag is `false` and the result does not depend on the
measurement function), and the state — hence every block height and every
flow offset — is unchanged. -/
theorem c8_layout_idempotent
    (relayout relayout2 : List MarkdownContent → ℚ → List MarkdownContent)
    (w : MarkdowWidget) (width : ℚ) :
    widgetLayout relayout2 (widgetLayout relayout w width).1 width =
      ((widgetLayout relayout w width).1, false)
    ∧ ((widgetLayout relayout2 (widgetLayout relayout w width).1
          width).1.markdown_layout.map MarkdownContent.height =
        (widgetLayout relayout w width).1.markdown_layout.map
          MarkdownContent.height)
    ∧ (flowOffsets (widgetLayout relayout2 (widgetLayout relayout w width).1
          width).1.markdown_layout =
        flowOffsets (widgetLayout relayout w width).1.markdown_layout) := by
  have key : widgetLayout relayout2 (widgetLayout relayout w width).1 width =
      ((widgetLayout relayout w width).1, false) := by
    unfold widgetLayout
    split <;> simp
  exact ⟨key, by rw [key], by rw [key]⟩

/-- C9: laying out a `Header` block shapes its text with the level's preset:
font size `theme.text_size` times exactly one of the six discrete factors
(2.125, 1.875, 1.5, 1.25, 1.125, 1.0), the per-level line height (2 at every
level), a bold weight override, and line-breaking at the given width. -/
theorem c9_header_presets (shape : ShapeRequest → TextLayout)
    (decode : String → Option DecodedImage) (theme : Theme) (width : ℚ)
    (level : HeadingLevel) (text : String) (markers : List TextMarker)
    (tl : TextLayout) :
    (layoutBlock shape decode theme width (.header level text markers tl) =
      .ok (.header level text markers
        (shape { text := text, markers := markers,
                 fontSize := headerFontSize theme level,
                 lineHeight := headerLineHeight level, bold := true,
                 maxWidth := some width, alignEnd := false })))
    ∧ headerFontSize theme .h1 = theme.text_size * 2.125
    ∧ headerFontSize theme .h2 = theme.text_size * 1.875
    ∧ headerFontSize theme .h3 = theme.text_size * 1.5
    ∧ headerFontSize theme .h4 = theme.text_size * 1.25
    ∧ headerFontSize theme .h5 = theme.text_size * 1.125
    ∧ headerFontSize theme .h6 = theme.text_size * 1
    ∧ headerLineHeight level = 2 := by
  refine ⟨rfl, rfl, rfl, rfl, rfl, rfl, (mul_one _).symm, ?_⟩
  cases level <;> rfl

/-- C10 counterexample: on an empty document in a 100-unit-tall viewport, a
mouse-wheel event with zero delta leaves the vertical scroll offset at
`-100 < 0`; the claim that the vertical offset is always `≥ 0` is false. -/
theorem c10_vertical_scroll_goes_negative :
    (onMouseWheel w0 (0, 0) 100 0).scroll.2 < 0 := by
  norm_num [onMouseWheel, w0, flowHeight]

/-- C10 (amended): after every mouse-wheel event the horizontal scroll
offset is exactly 0 (the `max 0` / `min 0` pair forces it for every input),
and the vertical offset is `≥ 0` whenever the clamp bound
`content height - viewport height + baseline` is non-negative; when the
document is shorter than the viewport the vertical offset becomes that
negative bound. -/
theorem c10_amended_scroll_clamps (w : MarkdowWidget) (delta : ℚ × ℚ)
    (sizeHeight baseline : ℚ) :
    (onMouseWheel w delta sizeHeight baseline).scroll.1 = 0
    ∧ (sizeHeight ≤ flowHeight w.markdown_layout + baseline →
        0 ≤ (onMouseWheel w delta sizeHeight baseline).scroll.2) := by
  constructor
  · show min (max _ 0) 0 = 0
    exact min_eq_right (le_max_right _ _)
  · intro hbound
    show 0 ≤ min (max _ 0) (flowHeight w.markdown_layout - sizeHeight + baseline)
    exact le_min (le_max_right _ _) (by linarith)

/-- C10 witness: for the empty widget in a zero-height viewport the bound is
non-negative, and the amended theorem yields a zero horizontal offset and a
non-negative vertical offset. -/
theorem c10_amended_scroll_clamps_witness :
    (onMouseWheel w0 (1, 5) 0 0).scroll.1 = 0
    ∧ 0 ≤ (onMouseWheel w0 (1, 5) 0 0).scroll.2 :=
  ⟨(c10_amended_scroll_clamps w0 (1, 5) 0 0).1,
   (c10_amended_scroll_clamps w0 (1, 5) 0 0).2
     (by norm_num [w0, flowHeight])⟩

end Wrenched
